import Mathlib

/-!
Shallow embedding of the s3-object-storage service (src/app.py, src/shared.py,
src/routers/buckets.py, src/routers/objects.py).

Modelling choices, each taken from the source:
* Filesystem paths are lists of components (`os.path.join` concatenation);
  `construct_storage_path` gives `[OBJECT_STORAGE_DIR, bucket_name, object_key]`.
  Object keys are modelled as single path components.
* The filesystem is a list of `(path, bytes)` files plus a list of directories.
* The sqlite `objects` table is a list of rows; the upsert
  (`INSERT ... ON CONFLICT(bucket_name, object_key) DO UPDATE SET ...`,
  objects.py lines 82-103) updates the conflicting row in place.
  The `buckets` table is a list of names.  The schema of shared.py declares
  `FOREIGN KEY (bucket_name) REFERENCES buckets(name) ON DELETE CASCADE`,
  but no connection ever runs `PRAGMA foreign_keys=ON` (neither `get_db` nor
  `init_db` does), and SQLite leaves foreign keys unenforced by default — so
  deleting a bucket row removes only that row and the bucket's object rows
  survive as orphans; the model reflects that.
  Timestamp columns (`created_at`, `last_modified`) are not modelled.
* `METADATA_CACHE = LRUCache(maxsize=config.OBJECT_METADATA_CACHE_SIZE)` is a
  list ordered most-recently-used first; the capacity is a parameter `cap`
  (config.py is not part of the sources).  `cache[k]` moves the entry to the
  front, `cache[k] = v` inserts at the front evicting from the back,
  `del cache[k]` removes the entry.
* External collaborators are parameters: `hash` stands for the streaming
  `hashlib.md5` hex digest of the uploaded bytes, `guess` for
  `mimetypes.guess_type`, and each fallible I/O or database step takes a
  Boolean failure flag so that every exception path of the source is a
  reachable branch of the model.
* Each endpoint returns the successor state together with an outcome;
  HTTP error responses are mapped to the error taxonomy below
  (404 -> notFound, 400 -> invalidArgument, 409 -> conflict, and the distinct
  500 raise sites -> storageFailure / metadataFailure / partialFailure /
  inconsistency).
-/

namespace S3

abbrev Path := List String

abbrev Blob := List Nat

/-- One possible value for `config.OBJECT_STORAGE_DIR` (config.py is not in
the sources; only the shape of the path matters). -/
def objectStorageDir : String := "data/objects"

/-- Model of `construct_storage_path` (objects.py line 19-20):
`os.path.join(config.OBJECT_STORAGE_DIR, bucket_name, object_key)`. -/
def storagePath (bucket key : String) : Path := [objectStorageDir, bucket, key]

/-- The bucket's root data directory,
`os.path.join(config.OBJECT_STORAGE_DIR, bucket_name)`. -/
def bucketRoot (bucket : String) : Path := [objectStorageDir, bucket]

/-- A row of the `objects` table (shared.py lines 22-36); the autoincrement
`id` and `last_modified` timestamp are not modelled. -/
structure ObjRow where
  bucket_name : String
  object_key : String
  internal_storage_id : String
  size_bytes : Nat
  etag : String
  content_type : String
  storage_path : Path
  deriving DecidableEq

/-- The dict cached by `get_object` (objects.py lines 138-146):
`storage_path, content_type, etag, size_bytes`. -/
structure Snapshot where
  storage_path : Path
  content_type : String
  etag : String
  size_bytes : Nat
  deriving DecidableEq

abbrev CacheKey := String × String

abbrev Cache := List (CacheKey × Snapshot)

/-- Whole-system state: the two sqlite tables, the filesystem (files and
directories), and the LRU metadata cache (most-recently-used first). -/
structure S3State where
  buckets : List String
  objects : List ObjRow
  files : List (Path × Blob)
  dirs : List Path
  cache : Cache
  deriving DecidableEq

/-- Error taxonomy; each constructor corresponds to one raise site of the
source (see the header comment). -/
inductive S3Error where
  | notFound
  | invalidArgument
  | conflict
  | storageFailure
  | metadataFailure
  | partialFailure
  | inconsistency
  deriving DecidableEq

/-- Decidable equality of outcomes (used to evaluate the model on concrete
inputs). -/
def exceptEqDec {ε α : Type} [DecidableEq ε] [DecidableEq α] :
    (x y : Except ε α) → Decidable (x = y)
  | .error e, .error f =>
    if h : e = f then .isTrue (congrArg Except.error h)
    else .isFalse (fun hc => h (by cases hc; rfl))
  | .ok a, .ok b =>
    if h : a = b then .isTrue (congrArg Except.ok h)
    else .isFalse (fun hc => h (by cases hc; rfl))
  | .error _, .ok _ => .isFalse (fun hc => Except.noConfusion hc)
  | .ok _, .error _ => .isFalse (fun hc => Except.noConfusion hc)

instance {ε α : Type} [DecidableEq ε] [DecidableEq α] :
    DecidableEq (Except ε α) := exceptEqDec

/- ===== filesystem model ===== -/

def fsFileExists (fs : List (Path × Blob)) (p : Path) : Bool :=
  fs.any (fun e => e.1 == p)

def fsRead (fs : List (Path × Blob)) (p : Path) : Option Blob :=
  (fs.find? (fun e => e.1 == p)).map (fun e => e.2)

/-- Model of `open(path, "wb")` followed by a complete streamed write: replaces any
file previously at `p`. -/
def fsWrite (fs : List (Path × Blob)) (p : Path) (content : Blob) :
    List (Path × Blob) :=
  (p, content) :: fs.filter (fun e => e.1 != p)

/-- Model of `os.remove(p)` (also the net effect of a truncating open followed by the
failure handler's remove). -/
def fsRemove (fs : List (Path × Blob)) (p : Path) : List (Path × Blob) :=
  fs.filter (fun e => e.1 != p)

def pathInits (p : Path) : List Path :=
  p.inits.filter (fun q => !q.isEmpty)

/-- Model of `os.makedirs(p, exist_ok=True)`: ensures `p` and all its ancestors are
directories. -/
def mkdirs (dirs : List Path) (p : Path) : List Path :=
  (pathInits p).foldl (fun ds q => if q ∈ ds then ds else q :: ds) dirs

def dirname (p : Path) : Path := p.dropLast

/-- Model of `shutil.rmtree(root)`: removes every file and directory at or below
`root` (buckets.py line 84). -/
def rmtree (st : S3State) (root : Path) : S3State :=
  { st with
    files := st.files.filter (fun e => !(root.isPrefixOf e.1)),
    dirs := st.dirs.filter (fun d => !(root.isPrefixOf d)) }

/-- Holds when `os.listdir(d)` is non-empty: some file or some other directory sits
directly inside `d`. -/
def dirHasEntries (st : S3State) (d : Path) : Bool :=
  st.files.any (fun e => dirname e.1 == d) ||
    st.dirs.any (fun q => dirname q == d && q != d)

/-- The empty-parent-directory cleanup walk of `delete_object`
(objects.py lines 220-229): starting from the deleted file's directory,
remove empty directories walking upward until the bucket root or a
non-empty directory is reached.  The fuel argument bounds the walk by the
path length. -/
def removeEmptyDirsUp (root : Path) : Nat → Path → S3State → S3State
  | 0, _, st => st
  | n + 1, cur, st =>
    if cur == root then st
    else if dirHasEntries st cur then st
    else
      removeEmptyDirsUp root n (dirname cur)
        { st with dirs := st.dirs.filter (fun d => d != cur) }

/- ===== metadata (sqlite) model ===== -/

def keyMatch (b k : String) (r : ObjRow) : Bool :=
  r.bucket_name == b && r.object_key == k

/-- Model of `SELECT ... FROM objects WHERE bucket_name = ? AND object_key = ?`. -/
def findObject (objs : List ObjRow) (b k : String) : Option ObjRow :=
  objs.find? (keyMatch b k)

/-- Model of `INSERT INTO objects ... ON CONFLICT(bucket_name, object_key) DO UPDATE
SET internal_storage_id = ..., storage_path = ..., size_bytes = ...,
etag = ..., content_type = ...` (objects.py lines 82-103): on conflict the
existing row is updated in place, otherwise the new row is appended. -/
def upsertObject (objs : List ObjRow) (r : ObjRow) : List ObjRow :=
  match objs with
  | [] => [r]
  | q :: rest =>
    if keyMatch r.bucket_name r.object_key q then
      { q with
        internal_storage_id := r.internal_storage_id,
        storage_path := r.storage_path,
        size_bytes := r.size_bytes,
        etag := r.etag,
        content_type := r.content_type } :: rest
    else q :: upsertObject rest r

/-- Model of `DELETE FROM objects WHERE bucket_name = ? AND object_key = ?`. -/
def deleteObjectRow (objs : List ObjRow) (b k : String) : List ObjRow :=
  objs.filter (fun r => !keyMatch b k r)

/- ===== LRU metadata cache model (cachetools.LRUCache) ===== -/

def lruLookup (c : Cache) (k : CacheKey) : Option Snapshot :=
  (c.find? (fun e => e.1 == k)).map (fun e => e.2)

/-- Model of `del cache[k]` (guarded by `k in cache` in the source, which makes it a
plain removal of the entry if present). -/
def lruDel (c : Cache) (k : CacheKey) : Cache :=
  c.filter (fun e => e.1 != k)

/-- Model of `cache[k] = v`: insert or refresh at the most-recently-used end; when
the capacity would be exceeded the least-recently-used entry (the back of
the list) is dropped. -/
def lruPut (cap : Nat) (c : Cache) (k : CacheKey) (v : Snapshot) : Cache :=
  ((k, v) :: lruDel c k).take cap

/- ===== content-type resolution ===== -/

/-- Python truthiness of an optional string (`None` and `""` are falsy). -/
def truthy : Option String → Bool
  | none => false
  | some s => !s.isEmpty

/-- The content-type resolution of `put_object` (objects.py lines 70-79):
explicit `Content-Type` header if truthy; else the upload's sniffed type if
truthy and not `application/octet-stream`; else `mimetypes.guess_type` of
the key if truthy; else `application/octet-stream`. -/
def resolveContentType (clientCT sniffedCT : Option String)
    (guess : String → Option String) (key : String) : String :=
  if truthy clientCT then clientCT.getD ""
  else if truthy sniffedCT && (sniffedCT.getD "" != "application/octet-stream") then
    sniffedCT.getD ""
  else if truthy (guess key) then (guess key).getD ""
  else "application/octet-stream"

/- ===== endpoints ===== -/

def bucketExists (st : S3State) (b : String) : Bool := b ∈ st.buckets

/-- Model of `not bucket_name or not bucket_name.strip()` (buckets.py line 21):
the name is empty or consists only of whitespace. -/
def isBlankName (s : String) : Bool :=
  s.data.all (fun c => c.isWhitespace)

/-- PUT `/objects/{bucket_name}/{object_key}` (objects.py lines 22-120).
`writeFails` = an exception during the streamed disk write (lines 60-64,
which removes the partially written file at the key-derived path);
`dbFails` = an exception during the metadata upsert (lines 105-111, which
rolls the transaction back and best-effort removes the just-written blob);
`cleanupFails` = that best-effort `os.remove` itself failing, leaving the
blob behind.  On success the cache entry for the key is dropped and the
etag (streamed md5 hex digest) and the resolved content type are
returned. -/
def putObject (hash : Blob → String) (guess : String → Option String)
    (bucket key : String) (content : Blob)
    (clientCT sniffedCT : Option String) (newId : String)
    (writeFails dbFails cleanupFails : Bool)
    (st : S3State) : S3State × Except S3Error (String × String) :=
  if bucketExists st bucket then
    if key.isEmpty then (st, .error .invalidArgument)
    else
      let path := storagePath bucket key
      let dirs1 := mkdirs st.dirs (dirname path)
      if writeFails then
        ({ st with dirs := dirs1, files := fsRemove st.files path },
         .error .storageFailure)
      else
        let files1 := fsWrite st.files path content
        let etag := hash content
        let ct := resolveContentType clientCT sniffedCT guess key
        if dbFails then
          if cleanupFails then
            ({ st with dirs := dirs1, files := files1 }, .error .metadataFailure)
          else
            ({ st with dirs := dirs1, files := fsRemove files1 path },
             .error .metadataFailure)
        else
          ({ st with
             dirs := dirs1,
             files := files1,
             objects := upsertObject st.objects
               ⟨bucket, key, newId, content.length, etag, ct, path⟩,
             cache := lruDel st.cache (bucket, key) },
           .ok (etag, ct))
  else (st, .error .notFound)

/-- GET `/objects/{bucket_name}/{object_key}` (objects.py lines 122-186).
On a cache hit the snapshot is used (and moved to the front); on a miss the
database row is fetched and cached.  If the blob file is missing the cache
entry is evicted and the `CRITICAL INCONSISTENCY` 500 is raised; otherwise
the file bytes, etag, content type and size are returned. -/
def getObject (cap : Nat) (bucket key : String) (st : S3State) :
    S3State × Except S3Error (Blob × String × String × Nat) :=
  let ck : CacheKey := (bucket, key)
  match lruLookup st.cache ck with
  | some snap =>
    let cache1 := (ck, snap) :: lruDel st.cache ck
    if fsFileExists st.files snap.storage_path then
      ({ st with cache := cache1 },
       .ok ((fsRead st.files snap.storage_path).getD [], snap.etag,
            snap.content_type, snap.size_bytes))
    else
      ({ st with cache := lruDel cache1 ck }, .error .inconsistency)
  | none =>
    match findObject st.objects bucket key with
    | none => (st, .error .notFound)
    | some r =>
      let snap : Snapshot := ⟨r.storage_path, r.content_type, r.etag, r.size_bytes⟩
      let cache1 := lruPut cap st.cache ck snap
      if fsFileExists st.files snap.storage_path then
        ({ st with cache := cache1 },
         .ok ((fsRead st.files snap.storage_path).getD [], snap.etag,
              snap.content_type, snap.size_bytes))
      else
        ({ st with cache := lruDel cache1 ck }, .error .inconsistency)

/-- The metadata-deletion tail of `delete_object` (objects.py lines
239-256): delete the row (raising the `PartialFailure` 500 when it fails,
before the cache is touched), then invalidate the cache entry. -/
def deleteMetaStep (bucket key : String) (dbFails : Bool) (st : S3State) :
    S3State × Except S3Error Unit :=
  if dbFails then (st, .error .partialFailure)
  else
    ({ st with
       objects := deleteObjectRow st.objects bucket key,
       cache := lruDel st.cache (bucket, key) },
     .ok ())

/-- DELETE `/objects/{bucket_name}/{object_key}` (objects.py lines
188-256).  `removeFails` = `os.remove` of the blob raising; `dbFails` = the
metadata row deletion raising.  A missing blob file is only a warning and
metadata deletion proceeds. -/
def deleteObjectE (bucket key : String) (removeFails dbFails : Bool)
    (st : S3State) : S3State × Except S3Error Unit :=
  match findObject st.objects bucket key with
  | none => (st, .error .notFound)
  | some r =>
    if fsFileExists st.files r.storage_path then
      if removeFails then (st, .error .storageFailure)
      else
        let st1 := { st with files := fsRemove st.files r.storage_path }
        let st2 := removeEmptyDirsUp (bucketRoot bucket)
          (dirname r.storage_path).length (dirname r.storage_path) st1
        deleteMetaStep bucket key dbFails st2
    else deleteMetaStep bucket key dbFails st

/-- PUT `/buckets/{bucket_name}` (buckets.py lines 19-43).  The bucket row
is inserted and committed first; `mkFails` = `os.makedirs` of the bucket
data directory raising afterwards, which surfaces a 500 without touching
the already-committed row. -/
def createBucket (bucket : String) (mkFails : Bool) (st : S3State) :
    S3State × Except S3Error Unit :=
  if isBlankName bucket then (st, .error .invalidArgument)
  else if bucketExists st bucket then (st, .error .conflict)
  else
    let st1 := { st with buckets := bucket :: st.buckets }
    if mkFails then (st1, .error .storageFailure)
    else ({ st1 with dirs := mkdirs st1.dirs (bucketRoot bucket) }, .ok ())

/-- The bucket-row deletion tail of `delete_bucket_endpoint` (buckets.py
lines 91-92): `DELETE FROM buckets WHERE name = ?`.  The schema declares
`ON DELETE CASCADE` (shared.py line 33), but no connection in the sources
ever runs `PRAGMA foreign_keys=ON` and SQLite leaves foreign keys
unenforced by default, so only the bucket row is removed and the bucket's
object rows remain as orphans. -/
def dbDeleteBucket (bucket : String) (dbFails : Bool) (st : S3State) :
    S3State × Except S3Error Unit :=
  if dbFails then (st, .error .metadataFailure)
  else
    ({ st with buckets := st.buckets.filter (fun b => b != bucket) }, .ok ())

/-- DELETE `/buckets/{bucket_name}` (buckets.py lines 71-101).  The data
directory tree is removed first (`rmFails` = `shutil.rmtree` raising, which
aborts with the row retained), then the bucket row is deleted (`dbFails` =
that deletion raising).  The metadata cache is never touched. -/
def deleteBucketE (bucket : String) (rmFails dbFails : Bool) (st : S3State) :
    S3State × Except S3Error Unit :=
  if bucketExists st bucket then
    if bucketRoot bucket ∈ st.dirs then
      if rmFails then (st, .error .storageFailure)
      else dbDeleteBucket bucket dbFails (rmtree st (bucketRoot bucket))
    else dbDeleteBucket bucket dbFails st
  else (st, .error .notFound)

/-- Uniqueness of `(bucket_name, object_key)` across the object rows (the
schema's `UNIQUE (bucket_name, object_key)` constraint, shared.py line 34). -/
def UniqueKeys (objs : List ObjRow) : Prop :=
  objs.Pairwise (fun a c => ¬(a.bucket_name = c.bucket_name ∧ a.object_key = c.object_key))

/- ===== concrete sample data for witnesses and counterexamples ===== -/

/-- A stand-in for the streaming md5 hex digest (any concrete function
works for evaluating the model; the digest itself lives in `hashlib`). -/
def sampleHash (bs : Blob) : String := "h" ++ toString (bs.foldl (fun a x => 2 * a + x + 1) 0)

/-- A stand-in for `mimetypes.guess_type`. -/
def sampleGuess (k : String) : Option String :=
  if k == "a.txt" then some "text/plain" else none

/-- The bytes of `"hello"`. -/
def sampleBytes : Blob := [104, 101, 108, 108, 111]

def sampleRow : ObjRow :=
  ⟨"docs", "k", "id0", 5, "etag0", "text/plain", storagePath "docs" "k"⟩

def sampleSnap : Snapshot := ⟨storagePath "docs" "k", "text/plain", "etag0", 5⟩

/-- A row that conflicts with `sampleRow` on `(bucket_name, object_key)`. -/
def sampleRow2 : ObjRow :=
  ⟨"docs", "k", "id7", 3, "etag7", "application/x-new", storagePath "docs" "k"⟩

/-- A reachable state: bucket `docs` holding one object whose metadata
snapshot sits in the cache. -/
def sampleState : S3State :=
  { buckets := ["docs"],
    objects := [sampleRow],
    files := [(storagePath "docs" "k", sampleBytes)],
    dirs := [[objectStorageDir], bucketRoot "docs"],
    cache := [(("docs", "k"), sampleSnap)] }

/- ===== helper lemmas ===== -/

theorem find?_filter_neg {α : Type} (p : α → Bool) (l : List α) :
    (l.filter (fun x => !(p x))).find? p = none := by
  rw [List.find?_eq_none]
  intro x hx
  rw [List.mem_filter] at hx
  simp only [Bool.not_eq_true'] at hx
  simp [hx.2]

theorem lruLookup_lruDel_self (c : Cache) (k : CacheKey) :
    lruLookup (lruDel c k) k = none := by
  have h : lruDel c k
      = c.filter (fun e => !((fun e : CacheKey × Snapshot => e.1 == k) e)) := by
    simp [lruDel, bne]
  rw [lruLookup, h, find?_filter_neg]
  rfl

theorem lruDel_eq_of_lookup_none {c : Cache} {k : CacheKey}
    (h : lruLookup c k = none) : lruDel c k = c := by
  rw [lruLookup] at h
  have h2 : c.find? (fun e => e.1 == k) = none := by
    cases hf : c.find? (fun e => e.1 == k) <;> simp [hf] at h ⊢
  rw [List.find?_eq_none] at h2
  rw [lruDel, List.filter_eq_self]
  intro a ha
  simpa [bne] using h2 a ha

theorem findObject_deleteObjectRow_self (objs : List ObjRow) (b k : String) :
    findObject (deleteObjectRow objs b k) b k = none :=
  find?_filter_neg (keyMatch b k) objs

theorem findObject_upsertObject_self (objs : List ObjRow) (r : ObjRow) :
    findObject (upsertObject objs r) r.bucket_name r.object_key = some r := by
  induction objs with
  | nil => simp [upsertObject, findObject, keyMatch]
  | cons q rest ih =>
    cases h : keyMatch r.bucket_name r.object_key q with
    | true =>
      have hb : q.bucket_name = r.bucket_name := by
        have h2 := h
        simp [keyMatch] at h2
        exact h2.1
      have hk : q.object_key = r.object_key := by
        have h2 := h
        simp [keyMatch] at h2
        exact h2.2
      simp only [upsertObject, h, if_true, findObject]
      rw [List.find?_cons_of_pos]
      · cases r
        cases q
        simp_all
      · simp [keyMatch, hb, hk]
    | false =>
      simp only [upsertObject, h, Bool.false_eq_true, if_false, findObject]
      rw [List.find?_cons_of_neg]
      · exact ih
      · simp [h]

theorem fsRead_fsWrite_self (fs : List (Path × Blob)) (p : Path) (c : Blob) :
    fsRead (fsWrite fs p c) p = some c := by
  simp [fsRead, fsWrite]

theorem fsFileExists_fsWrite_self (fs : List (Path × Blob)) (p : Path) (c : Blob) :
    fsFileExists (fsWrite fs p c) p = true := by
  simp [fsFileExists, fsWrite]

theorem fsFileExists_fsRemove_self (fs : List (Path × Blob)) (p : Path) :
    fsFileExists (fsRemove fs p) p = false := by
  rw [fsFileExists, fsRemove]
  rw [Bool.eq_false_iff]
  intro h
  rw [List.any_eq_true] at h
  obtain ⟨e, he, hp⟩ := h
  rw [List.mem_filter] at he
  simp only [bne, Bool.not_eq_true'] at he
  rw [he.2] at hp
  exact Bool.false_ne_true hp

theorem fsRemove_fsWrite (fs : List (Path × Blob)) (p : Path) (c : Blob) :
    fsRemove (fsWrite fs p c) p = fsRemove fs p := by
  rw [fsRemove, fsWrite, List.filter_cons]
  simp only [bne_self_eq_false, Bool.false_eq_true, if_false, List.filter_filter,
    Bool.and_self]
  rfl

theorem removeEmptyDirsUp_frame (root : Path) (n : Nat) (cur : Path) (st : S3State) :
    (removeEmptyDirsUp root n cur st).objects = st.objects ∧
    (removeEmptyDirsUp root n cur st).files = st.files ∧
    (removeEmptyDirsUp root n cur st).cache = st.cache ∧
    (removeEmptyDirsUp root n cur st).buckets = st.buckets := by
  induction n generalizing cur st with
  | zero => exact ⟨rfl, rfl, rfl, rfl⟩
  | succ n ih =>
    rw [removeEmptyDirsUp]
    split
    · exact ⟨rfl, rfl, rfl, rfl⟩
    · split
      · exact ⟨rfl, rfl, rfl, rfl⟩
      · exact ih _ _

theorem length_filter_lt_of_mem {α : Type} {p : α → Bool} {l : List α} {a : α}
    (ha : a ∈ l) (hp : p a = false) : (l.filter p).length < l.length := by
  induction l with
  | nil => cases ha
  | cons b l ih =>
    rcases List.mem_cons.mp ha with rfl | ha2
    · rw [List.filter_cons, hp]
      simp only [Bool.false_eq_true, if_false, List.length_cons]
      exact Nat.lt_succ_of_le (List.length_filter_le _ _)
    · cases hb : p b with
      | true =>
        rw [List.filter_cons, hb]
        simp only [if_true, List.length_cons]
        exact Nat.succ_lt_succ (ih ha2)
      | false =>
        rw [List.filter_cons, hb]
        simp only [Bool.false_eq_true, if_false, List.length_cons]
        exact Nat.lt_succ_of_le (List.length_filter_le _ _)

theorem length_lruDel_le (c : Cache) (k : CacheKey) :
    (lruDel c k).length ≤ c.length :=
  List.length_filter_le _ _

theorem length_lruDel_lt {c : Cache} {k : CacheKey} {v : Snapshot}
    (h : lruLookup c k = some v) : (lruDel c k).length < c.length := by
  rw [lruLookup] at h
  obtain ⟨e, he, -⟩ := Option.map_eq_some'.mp h
  have hmem := List.mem_of_find?_eq_some he
  have hpe := List.find?_some he
  apply length_filter_lt_of_mem hmem
  simp only [bne, hpe, Bool.not_true]

theorem length_lruPut_le (cap : Nat) (c : Cache) (k : CacheKey) (v : Snapshot) :
    (lruPut cap c k v).length ≤ cap := by
  rw [lruPut, List.length_take]
  exact Nat.min_le_left _ _

theorem lruPut_evicts_lru {cap : Nat} {c : Cache} {k : CacheKey} (v : Snapshot)
    (hfull : c.length = cap) (hpos : 0 < cap) (hmiss : lruLookup c k = none) :
    lruPut cap c k v = (k, v) :: c.dropLast := by
  rw [lruPut, lruDel_eq_of_lookup_none hmiss, List.take_cons hpos,
    List.dropLast_eq_take, hfull]

theorem fsFileExists_filter_under (fs : List (Path × Blob)) (root p : Path)
    (h : root.isPrefixOf p = true) :
    fsFileExists (fs.filter (fun e => !(root.isPrefixOf e.1))) p = false := by
  rw [fsFileExists, Bool.eq_false_iff]
  intro hx
  rw [List.any_eq_true] at hx
  obtain ⟨e, he, hp⟩ := hx
  rw [List.mem_filter] at he
  have hep : e.1 = p := by simpa using hp
  rw [hep] at he
  rw [h] at he
  exact Bool.false_ne_true (by simpa using he.2)

theorem not_mem_filter_root (dirs : List Path) (root : Path) :
    root ∉ dirs.filter (fun d => !(root.isPrefixOf d)) := by
  intro h
  rw [List.mem_filter] at h
  have hrefl : root.isPrefixOf root = true := by
    rw [List.isPrefixOf_iff_prefix]
  rw [hrefl] at h
  exact Bool.false_ne_true (by simpa using h.2)

theorem not_mem_filter_bne_self (l : List String) (b : String) :
    b ∉ l.filter (fun x => x != b) := by
  intro h
  rw [List.mem_filter] at h
  exact Bool.false_ne_true (by simpa using h.2)

theorem bucketRoot_isPrefixOf_storagePath (b k : String) :
    (bucketRoot b).isPrefixOf (storagePath b k) = true := by
  simp [bucketRoot, storagePath, List.isPrefixOf]

theorem removeEmptyDirsUp_objects (root : Path) (n : Nat) (cur : Path) (st : S3State) :
    (removeEmptyDirsUp root n cur st).objects = st.objects :=
  (removeEmptyDirsUp_frame root n cur st).1

theorem removeEmptyDirsUp_files (root : Path) (n : Nat) (cur : Path) (st : S3State) :
    (removeEmptyDirsUp root n cur st).files = st.files :=
  (removeEmptyDirsUp_frame root n cur st).2.1

theorem removeEmptyDirsUp_cache (root : Path) (n : Nat) (cur : Path) (st : S3State) :
    (removeEmptyDirsUp root n cur st).cache = st.cache :=
  (removeEmptyDirsUp_frame root n cur st).2.2.1

theorem mem_upsertObject {objs : List ObjRow} {r x : ObjRow}
    (hx : x ∈ upsertObject objs r) :
    x ∈ objs ∨ (x.bucket_name = r.bucket_name ∧ x.object_key = r.object_key) := by
  induction objs with
  | nil =>
    right
    rw [upsertObject] at hx
    have : x = r := List.mem_singleton.mp hx
    rw [this]
    exact ⟨rfl, rfl⟩
  | cons q rest ih =>
    cases hm : keyMatch r.bucket_name r.object_key q with
    | true =>
      simp only [upsertObject, hm, if_true] at hx
      rcases List.mem_cons.mp hx with rfl | hx2
      · right
        have h2 := hm
        simp [keyMatch] at h2
        exact ⟨h2.1, h2.2⟩
      · exact Or.inl (List.mem_cons_of_mem _ hx2)
    | false =>
      simp only [upsertObject, hm, Bool.false_eq_true, if_false] at hx
      rcases List.mem_cons.mp hx with rfl | hx2
      · exact Or.inl (List.mem_cons_self _ _)
      · rcases ih hx2 with h2 | h2
        · exact Or.inl (List.mem_cons_of_mem _ h2)
        · exact Or.inr h2

theorem upsertObject_preserves_unique {objs : List ObjRow} (r : ObjRow)
    (h : UniqueKeys objs) : UniqueKeys (upsertObject objs r) := by
  induction objs with
  | nil => exact List.pairwise_singleton _ _
  | cons q rest ih =>
    rw [UniqueKeys, List.pairwise_cons] at h
    cases hm : keyMatch r.bucket_name r.object_key q with
    | true =>
      simp only [upsertObject, hm, if_true]
      rw [UniqueKeys, List.pairwise_cons]
      exact ⟨fun x hx => h.1 x hx, h.2⟩
    | false =>
      simp only [upsertObject, hm, Bool.false_eq_true, if_false]
      rw [UniqueKeys, List.pairwise_cons]
      refine ⟨?_, ih h.2⟩
      intro x hx
      rcases mem_upsertObject hx with hx2 | hx2
      · exact h.1 x hx2
      · intro hc
        have hm2 : keyMatch r.bucket_name r.object_key q = true := by
          simp [keyMatch, hc.1, hc.2, hx2.1, hx2.2]
        rw [hm] at hm2
        exact Bool.false_ne_true hm2

theorem countP_upsertObject {objs : List ObjRow} (r : ObjRow) (h : UniqueKeys objs) :
    (upsertObject objs r).countP (keyMatch r.bucket_name r.object_key) = 1 := by
  induction objs with
  | nil => simp [upsertObject, keyMatch]
  | cons q rest ih =>
    rw [UniqueKeys, List.pairwise_cons] at h
    cases hm : keyMatch r.bucket_name r.object_key q with
    | true =>
      have h2 := hm
      simp only [keyMatch, Bool.and_eq_true, beq_iff_eq] at h2
      simp only [upsertObject, hm, if_true]
      rw [List.countP_cons_of_pos]
      · have hz : rest.countP (keyMatch r.bucket_name r.object_key) = 0 := by
          rw [List.countP_eq_zero]
          intro x hx hpx
          simp only [keyMatch, Bool.and_eq_true, beq_iff_eq] at hpx
          exact h.1 x hx ⟨h2.1.trans hpx.1.symm, h2.2.trans hpx.2.symm⟩
        rw [hz]
      · simp [keyMatch, h2.1, h2.2]
    | false =>
      simp only [upsertObject, hm, Bool.false_eq_true, if_false]
      rw [List.countP_cons_of_neg]
      · exact ih h.2
      · simp [hm]

theorem upsertObject_of_not_found {objs : List ObjRow} {r : ObjRow}
    (h : findObject objs r.bucket_name r.object_key = none) :
    upsertObject objs r = objs ++ [r] := by
  induction objs with
  | nil => rfl
  | cons q rest ih =>
    rw [findObject] at h
    have hq : keyMatch r.bucket_name r.object_key q = false := by
      cases hq : keyMatch r.bucket_name r.object_key q with
      | false => rfl
      | true =>
        rw [List.find?_cons_of_pos _ hq] at h
        cases h
    rw [List.find?_cons_of_neg _ (by simp [hq])] at h
    simp only [upsertObject, hq, Bool.false_eq_true, if_false]
    rw [ih h]
    rfl

theorem length_upsertObject_of_found {objs : List ObjRow} {r q : ObjRow}
    (h : findObject objs r.bucket_name r.object_key = some q) :
    (upsertObject objs r).length = objs.length := by
  induction objs with
  | nil => cases h
  | cons a rest ih =>
    cases hm : keyMatch r.bucket_name r.object_key a with
    | true => simp [upsertObject, hm]
    | false =>
      simp only [upsertObject, hm, Bool.false_eq_true, if_false, List.length_cons]
      congr 1
      apply ih
      rw [findObject] at h ⊢
      rw [List.find?_cons_of_neg _ (by simp [hm])] at h
      exact h

theorem putObject_cache_cases (hash : Blob → String) (guess : String → Option String)
    (b k id : String) (content : Blob) (cct sct : Option String)
    (wF dF cF : Bool) (st : S3State) :
    (putObject hash guess b k content cct sct id wF dF cF st).1.cache = st.cache ∨
    (putObject hash guess b k content cct sct id wF dF cF st).1.cache
      = lruDel st.cache (b, k) := by
  rw [putObject]
  split_ifs <;> simp

theorem deleteObjectE_cache_cases (b k : String) (rF dF : Bool) (st : S3State) :
    (deleteObjectE b k rF dF st).1.cache = st.cache ∨
    (deleteObjectE b k rF dF st).1.cache = lruDel st.cache (b, k) := by
  cases hf : findObject st.objects b k with
  | none => simp [deleteObjectE, hf]
  | some r =>
    simp only [deleteObjectE, hf]
    split
    · split
      · simp
      · rw [deleteMetaStep]
        split
        · exact Or.inl (removeEmptyDirsUp_frame _ _ _ _).2.2.1
        · right
          simp only
          rw [(removeEmptyDirsUp_frame _ _ _ _).2.2.1]
    · rw [deleteMetaStep]
      split
      · exact Or.inl rfl
      · exact Or.inr rfl

theorem getObject_cache_bound (cap : Nat) (b k : String) (st : S3State)
    (h : st.cache.length ≤ cap) : (getObject cap b k st).1.cache.length ≤ cap := by
  cases hl : lruLookup st.cache (b, k) with
  | none =>
    cases hf : findObject st.objects b k with
    | none =>
      simp only [getObject, hl, hf]
      exact h
    | some r =>
      simp only [getObject, hl, hf]
      split
      · exact length_lruPut_le cap _ _ _
      · exact Nat.le_trans (length_lruDel_le _ _) (length_lruPut_le cap _ _ _)
  | some snap =>
    have hlt := length_lruDel_lt hl
    simp only [getObject, hl]
    split
    · simpa using Nat.le_trans (Nat.succ_le_of_lt hlt) h
    · refine Nat.le_trans (length_lruDel_le _ _) ?_
      simpa using Nat.le_trans (Nat.succ_le_of_lt hlt) h

/- ===== claims ===== -/

/-- Claim C2, counterexample to the claim as stated: at a state where
`("docs", "k")` already holds a blob, a Put whose streamed write fails
mid-stream aborts with `StorageFailure` but removes the file at the
key-derived path, destroying the pre-existing blob — the state is not
exactly as before the call. -/
theorem C2_counterexample :
    fsFileExists sampleState.files (storagePath "docs" "k") = true ∧
    (putObject sampleHash sampleGuess "docs" "k" [1, 2, 3] none none "id1"
      true false false sampleState).2 = Except.error S3Error.storageFailure ∧
    fsFileExists (putObject sampleHash sampleGuess "docs" "k" [1, 2, 3] none none "id1"
      true false false sampleState).1.files (storagePath "docs" "k") = false :=
  ⟨by decide, by decide, by decide⟩

/-- Claim C2, amended: when the blob write fails mid-stream, `put_object`
aborts with `StorageFailure` and no metadata or cache change occurs
(objects, buckets and cache are exactly as before), but the file at the
key-derived storage path is removed by the failure handler (objects.py
lines 60-64) — so a pre-existing blob being overwritten at `(bucket, key)`
is destroyed rather than preserved. -/
theorem C2_put_write_failure (hash : Blob → String)
    (guess : String → Option String) (b k id : String) (content : Blob)
    (cct sct : Option String) (dbF cF : Bool) (st : S3State)
    (hb : bucketExists st b = true) (hk : k.isEmpty = false) :
    putObject hash guess b k content cct sct id true dbF cF st
      = ({ st with
           dirs := mkdirs st.dirs (dirname (storagePath b k)),
           files := fsRemove st.files (storagePath b k) },
         Except.error S3Error.storageFailure) := by
  simp [putObject, hb, hk]

/-- Witness for C2 at a concrete overwrite input. -/
theorem C2_witness :
    bucketExists sampleState "docs" = true ∧ "k".isEmpty = false ∧
    putObject sampleHash sampleGuess "docs" "k" [1, 2, 3] none none "id1"
      true false false sampleState
      = ({ sampleState with
           dirs := mkdirs sampleState.dirs (dirname (storagePath "docs" "k")),
           files := fsRemove sampleState.files (storagePath "docs" "k") },
         Except.error S3Error.storageFailure) :=
  ⟨by decide, by decide,
   C2_put_write_failure sampleHash sampleGuess "docs" "k" "id1" [1, 2, 3]
     none none false false sampleState (by decide) (by decide)⟩

/-- Claim C3, counterexample to the claim as stated: overwriting Put whose
upsert fails and whose best-effort cleanup also fails leaves the new bytes
at the key-derived path, and the surviving old metadata record still points
at that path — the remaining blob is neither the prior state nor an orphan
that no metadata record references. -/
theorem C3_counterexample :
    (putObject sampleHash sampleGuess "docs" "k" [1, 2, 3] none none "id1"
      false true true sampleState).2 = Except.error S3Error.metadataFailure ∧
    findObject (putObject sampleHash sampleGuess "docs" "k" [1, 2, 3] none none "id1"
      false true true sampleState).1.objects "docs" "k" = some sampleRow ∧
    sampleRow.storage_path = storagePath "docs" "k" ∧
    fsRead (putObject sampleHash sampleGuess "docs" "k" [1, 2, 3] none none "id1"
      false true true sampleState).1.files (storagePath "docs" "k") = some [1, 2, 3] ∧
    fsRead sampleState.files (storagePath "docs" "k") = some sampleBytes :=
  ⟨by decide, by decide, by decide, by decide, by decide⟩

/-- Claim C3, amended: when the metadata upsert fails after a successful
blob write, the transaction is rolled back (object rows, buckets and cache
unchanged), the just-written blob is removed best-effort, and
`MetadataFailure` is raised.  For a fresh key this restores the prior state
modulo the cleanup; for an overwrite the prior blob was already destroyed
by the truncating write, and when the cleanup itself fails the remaining
blob holds the new content at the key-derived path that the surviving old
metadata record still references — it is not an unreferenced orphan. -/
theorem C3_put_upsert_failure (hash : Blob → String)
    (guess : String → Option String) (b k id : String) (content : Blob)
    (cct sct : Option String) (cF : Bool) (st : S3State)
    (hb : bucketExists st b = true) (hk : k.isEmpty = false) :
    (putObject hash guess b k content cct sct id false true cF st).2
      = Except.error S3Error.metadataFailure ∧
    (putObject hash guess b k content cct sct id false true cF st).1.objects
      = st.objects ∧
    (putObject hash guess b k content cct sct id false true cF st).1.cache
      = st.cache ∧
    (putObject hash guess b k content cct sct id false true cF st).1.buckets
      = st.buckets ∧
    (cF = false →
      (putObject hash guess b k content cct sct id false true cF st).1.files
        = fsRemove st.files (storagePath b k)) ∧
    (cF = true →
      (putObject hash guess b k content cct sct id false true cF st).1.files
        = fsWrite st.files (storagePath b k) content) ∧
    (cF = true → ∀ q, findObject st.objects b k = some q →
      q.storage_path = storagePath b k →
      findObject (putObject hash guess b k content cct sct id false true cF st).1.objects
          b k = some q ∧
      fsRead (putObject hash guess b k content cct sct id false true cF st).1.files
          q.storage_path = some content) := by
  cases cF with
  | false =>
    have hput : putObject hash guess b k content cct sct id false true false st
        = ({ st with
             dirs := mkdirs st.dirs (dirname (storagePath b k)),
             files := fsRemove st.files (storagePath b k) },
           Except.error S3Error.metadataFailure) := by
      simp [putObject, hb, hk, fsRemove_fsWrite]
    rw [hput]
    refine ⟨rfl, rfl, rfl, rfl, fun _ => rfl, ?_, ?_⟩
    · intro h
      cases h
    · intro h
      cases h
  | true =>
    have hput : putObject hash guess b k content cct sct id false true true st
        = ({ st with
             dirs := mkdirs st.dirs (dirname (storagePath b k)),
             files := fsWrite st.files (storagePath b k) content },
           Except.error S3Error.metadataFailure) := by
      simp [putObject, hb, hk]
    rw [hput]
    refine ⟨rfl, rfl, rfl, rfl, ?_, fun _ => rfl, ?_⟩
    · intro h
      cases h
    · intro _ q hq hpath
      refine ⟨hq, ?_⟩
      rw [hpath]
      exact fsRead_fsWrite_self _ _ _

/-- Witness for C3 at a concrete overwrite input with failing cleanup. -/
theorem C3_witness :
    bucketExists sampleState "docs" = true ∧ "k".isEmpty = false ∧
    findObject sampleState.objects "docs" "k" = some sampleRow ∧
    (putObject sampleHash sampleGuess "docs" "k" [1, 2, 3] none none "id1"
      false true true sampleState).2 = Except.error S3Error.metadataFailure ∧
    fsRead (putObject sampleHash sampleGuess "docs" "k" [1, 2, 3] none none "id1"
      false true true sampleState).1.files sampleRow.storage_path = some [1, 2, 3] :=
  ⟨by decide, by decide, by decide,
   (C3_put_upsert_failure sampleHash sampleGuess "docs" "k" "id1" [1, 2, 3]
     none none true sampleState (by decide) (by decide)).1,
   ((C3_put_upsert_failure sampleHash sampleGuess "docs" "k" "id1" [1, 2, 3]
     none none true sampleState (by decide) (by decide)).2.2.2.2.2.2 rfl sampleRow
     (by decide) (by decide)).2⟩

/-- Claim C4, counterexample to the claim as stated: when directory
creation fails after the bucket row was inserted and committed, the row is
not rolled back — it is still present after the failed call, while no
directory was created. -/
theorem C4_counterexample :
    (createBucket "newb" true sampleState).2 = Except.error S3Error.storageFailure ∧
    "newb" ∈ (createBucket "newb" true sampleState).1.buckets ∧
    (createBucket "newb" true sampleState).1.dirs = sampleState.dirs :=
  ⟨by decide, by decide, by decide⟩

/-- Claim C4, amended: `create_bucket` inserts and commits the bucket row
first and then creates the root directory; when directory creation fails
a `StorageFailure` is surfaced but the committed row is retained (there is
no rollback row delete, buckets.py lines 35-41), so the metadata store and
the filesystem diverge until repaired out of band. -/
theorem C4_create_bucket_no_rollback (b : String) (st : S3State)
    (hname : isBlankName b = false) (hnew : bucketExists st b = false) :
    createBucket b true st
      = ({ st with buckets := b :: st.buckets },
         Except.error S3Error.storageFailure) := by
  simp [createBucket, hname, hnew]

/-- Witness for C4 at a concrete input. -/
theorem C4_witness :
    isBlankName "newb" = false ∧ bucketExists sampleState "newb" = false ∧
    createBucket "newb" true sampleState
      = ({ sampleState with buckets := "newb" :: sampleState.buckets },
         Except.error S3Error.storageFailure) :=
  ⟨by decide, by decide,
   C4_create_bucket_no_rollback "newb" sampleState (by decide) (by decide)⟩

/-- Claim C1, counterexample to the claim as stated: after a successful
`DeleteBucket("docs")`, `GetObject("docs", "k")` for the previously stored
key fails with the `Inconsistency` 500, not `NotFound` — both when the
metadata snapshot for `("docs", "k")` is still cached (the bucket delete
never invalidates the cache, so the Get hits the stale snapshot and finds
the blob gone) and when the cache is empty (the bucket delete does not
remove the object rows, so the Get finds the orphaned row and again sees
the blob gone). -/
theorem C1_counterexample :
    lruLookup sampleState.cache ("docs", "k") = some sampleSnap ∧
    (deleteBucketE "docs" false false sampleState).2 = Except.ok () ∧
    (getObject 4 "docs" "k" (deleteBucketE "docs" false false sampleState).1).2
      = Except.error S3Error.inconsistency ∧
    (getObject 4 "docs" "k" (deleteBucketE "docs" false false sampleState).1).2
      ≠ Except.error S3Error.notFound ∧
    (deleteBucketE "docs" false false { sampleState with cache := [] }).2
      = Except.ok () ∧
    (getObject 4 "docs" "k"
      (deleteBucketE "docs" false false { sampleState with cache := [] }).1).2
      = Except.error S3Error.inconsistency :=
  ⟨by decide, by decide, by decide, by decide, by decide, by decide⟩

/-- Claim C1, amended: after a successful `DeleteBucket(B)` the bucket's
root directory no longer exists and the bucket row is gone, but the
bucket's object rows are NOT removed — the schema declares
`ON DELETE CASCADE` yet no connection ever runs `PRAGMA foreign_keys=ON`,
so SQLite does not enforce it — and the metadata cache is never touched
(buckets.py lines 71-101).  A subsequent `GetObject(B, K)` for a
previously stored key therefore fails with the `Inconsistency` 500 rather
than `NotFound`: on a cache hit it uses the stale snapshot and finds the
blob missing under the removed root; on a cache miss it finds the orphaned
row and likewise finds the blob missing. -/
theorem C1_delete_bucket_no_cascade (cap : Nat) (b : String) (st : S3State)
    (hdir : bucketRoot b ∈ st.dirs)
    (hok : (deleteBucketE b false false st).2 = Except.ok ()) :
    bucketRoot b ∉ (deleteBucketE b false false st).1.dirs ∧
    b ∉ (deleteBucketE b false false st).1.buckets ∧
    (deleteBucketE b false false st).1.objects = st.objects ∧
    (deleteBucketE b false false st).1.cache = st.cache ∧
    (∀ k r, lruLookup st.cache (b, k) = none →
      findObject st.objects b k = some r →
      r.storage_path = storagePath b k →
      (getObject cap b k (deleteBucketE b false false st).1).2
        = Except.error S3Error.inconsistency) ∧
    (∀ k snap, lruLookup st.cache (b, k) = some snap →
      (bucketRoot b).isPrefixOf snap.storage_path = true →
      (getObject cap b k (deleteBucketE b false false st).1).2
        = Except.error S3Error.inconsistency) := by
  by_cases hb : bucketExists st b = true
  case neg =>
    rw [deleteBucketE] at hok
    simp only [hb, Bool.false_eq_true, if_false] at hok
    cases hok
  case pos =>
    have heq : deleteBucketE b false false st
        = ({ buckets := st.buckets.filter (fun x => x != b),
             objects := st.objects,
             files := st.files.filter (fun e => !((bucketRoot b).isPrefixOf e.1)),
             dirs := st.dirs.filter (fun d => !((bucketRoot b).isPrefixOf d)),
             cache := st.cache }, Except.ok ()) := by
      simp [deleteBucketE, hb, hdir, rmtree, dbDeleteBucket]
    refine ⟨?_, ?_, ?_, ?_, ?_, ?_⟩
    · rw [heq]
      exact not_mem_filter_root st.dirs (bucketRoot b)
    · rw [heq]
      exact not_mem_filter_bne_self st.buckets b
    · rw [heq]
    · rw [heq]
    · intro k r hmiss hrow hpath
      rw [heq]
      have hpre : (bucketRoot b).isPrefixOf r.storage_path = true := by
        rw [hpath]
        exact bucketRoot_isPrefixOf_storagePath b k
      simp only [getObject, hmiss, hrow, fsFileExists_filter_under st.files
        (bucketRoot b) r.storage_path hpre, Bool.false_eq_true, if_false]
    · intro k snap hhit hpre
      rw [heq]
      simp only [getObject, hhit, fsFileExists_filter_under st.files (bucketRoot b)
        snap.storage_path hpre, Bool.false_eq_true, if_false]

/-- Witness for C1 at concrete inputs: after the bucket delete, the Get
fails with the inconsistency error on a cache hit, and also on a cache
miss through the orphaned row. -/
theorem C1_witness :
    bucketRoot "docs" ∈ sampleState.dirs ∧
    (deleteBucketE "docs" false false sampleState).2 = Except.ok () ∧
    lruLookup sampleState.cache ("docs", "k") = some sampleSnap ∧
    (getObject 4 "docs" "k" (deleteBucketE "docs" false false sampleState).1).2
      = Except.error S3Error.inconsistency ∧
    findObject ({ sampleState with cache := ([] : Cache) }).objects "docs" "k"
      = some sampleRow ∧
    (getObject 4 "docs" "k"
      (deleteBucketE "docs" false false { sampleState with cache := ([] : Cache) }).1).2
      = Except.error S3Error.inconsistency :=
  ⟨by decide, by decide, by decide,
   (C1_delete_bucket_no_cascade 4 "docs" sampleState (by decide)
     (by decide)).2.2.2.2.2 "k" sampleSnap (by decide) (by decide),
   by decide,
   (C1_delete_bucket_no_cascade 4 "docs" { sampleState with cache := ([] : Cache) }
     (by decide) (by decide)).2.2.2.2.1 "k" sampleRow (by decide) (by decide)
     (by decide)⟩

/-- Claim C5, confirmed: for every payload and non-empty key in an existing
bucket, a successful `PutObject` followed by `GetObject` returns bytes
identical to the payload together with a fingerprint equal to the
deterministic streaming digest of the payload (the stored etag), and the
resolved content type and size. -/
theorem C5_put_get_roundtrip (hash : Blob → String)
    (guess : String → Option String) (b k id : String) (content : Blob)
    (cct sct : Option String) (cap : Nat) (st : S3State)
    (hb : bucketExists st b = true) (hk : k.isEmpty = false) :
    (putObject hash guess b k content cct sct id false false false st).2
      = Except.ok (hash content, resolveContentType cct sct guess k) ∧
    (getObject cap b k
      (putObject hash guess b k content cct sct id false false false st).1).2
      = Except.ok (content, hash content, resolveContentType cct sct guess k,
                   content.length) := by
  have hput : putObject hash guess b k content cct sct id false false false st
      = ({ st with
           dirs := mkdirs st.dirs (dirname (storagePath b k)),
           files := fsWrite st.files (storagePath b k) content,
           objects := upsertObject st.objects
             ⟨b, k, id, content.length, hash content,
              resolveContentType cct sct guess k, storagePath b k⟩,
           cache := lruDel st.cache (b, k) },
         Except.ok (hash content, resolveContentType cct sct guess k)) := by
    simp [putObject, hb, hk]
  refine ⟨by rw [hput], ?_⟩
  rw [hput]
  have hfind : findObject
      (upsertObject st.objects
        ⟨b, k, id, content.length, hash content,
         resolveContentType cct sct guess k, storagePath b k⟩) b k
      = some ⟨b, k, id, content.length, hash content,
              resolveContentType cct sct guess k, storagePath b k⟩ :=
    findObject_upsertObject_self st.objects _
  simp only [getObject, lruLookup_lruDel_self, hfind, fsFileExists_fsWrite_self,
    fsRead_fsWrite_self, if_true, Option.getD_some]

/-- Witness for C5 at a concrete input: putting the bytes of `"hello"` at
`("docs", "a.txt")` and getting them back. -/
theorem C5_witness :
    bucketExists sampleState "docs" = true ∧ "a.txt".isEmpty = false ∧
    (putObject sampleHash sampleGuess "docs" "a.txt" sampleBytes none none "id9"
      false false false sampleState).2
      = Except.ok (sampleHash sampleBytes,
                   resolveContentType none none sampleGuess "a.txt") ∧
    (getObject 4 "docs" "a.txt"
      (putObject sampleHash sampleGuess "docs" "a.txt" sampleBytes none none "id9"
        false false false sampleState).1).2
      = Except.ok (sampleBytes, sampleHash sampleBytes,
                   resolveContentType none none sampleGuess "a.txt",
                   sampleBytes.length) :=
  ⟨by decide, by decide,
   (C5_put_get_roundtrip sampleHash sampleGuess "docs" "a.txt" "id9" sampleBytes
     none none 4 sampleState (by decide) (by decide)).1,
   (C5_put_get_roundtrip sampleHash sampleGuess "docs" "a.txt" "id9" sampleBytes
     none none 4 sampleState (by decide) (by decide)).2⟩

/-- Claim C6, confirmed: for an existing object at `(bucket, key)`, a
successful `DeleteObject` removes the row and invalidates the cache entry,
so a following `GetObject` fails `NotFound` and a second `DeleteObject`
also fails `NotFound`. -/
theorem C6_delete_get_delete (cap : Nat) (b k : String) (st : S3State)
    (r : ObjRow) (hr : findObject st.objects b k = some r) :
    (deleteObjectE b k false false st).2 = Except.ok () ∧
    (getObject cap b k (deleteObjectE b k false false st).1).2
      = Except.error S3Error.notFound ∧
    (deleteObjectE b k false false (deleteObjectE b k false false st).1).2
      = Except.error S3Error.notFound := by
  have h2 : (deleteObjectE b k false false st).2 = Except.ok () := by
    simp only [deleteObjectE, hr]
    split
    · simp [deleteMetaStep]
    · simp [deleteMetaStep]
  have hobj : (deleteObjectE b k false false st).1.objects
      = deleteObjectRow st.objects b k := by
    simp only [deleteObjectE, hr]
    split
    · simp [deleteMetaStep, removeEmptyDirsUp_objects]
    · simp [deleteMetaStep]
  have hcache : (deleteObjectE b k false false st).1.cache
      = lruDel st.cache (b, k) := by
    simp only [deleteObjectE, hr]
    split
    · simp [deleteMetaStep, removeEmptyDirsUp_cache]
    · simp [deleteMetaStep]
  refine ⟨h2, ?_, ?_⟩
  · generalize hD : (deleteObjectE b k false false st).1 = D
    rw [hD] at hobj hcache
    simp only [getObject, hcache, lruLookup_lruDel_self, hobj,
      findObject_deleteObjectRow_self]
  · generalize hD : (deleteObjectE b k false false st).1 = D
    rw [hD] at hobj hcache
    simp only [deleteObjectE, hobj, findObject_deleteObjectRow_self]

/-- Witness for C6 at a concrete input. -/
theorem C6_witness :
    findObject sampleState.objects "docs" "k" = some sampleRow ∧
    (deleteObjectE "docs" "k" false false sampleState).2 = Except.ok () ∧
    (getObject 4 "docs" "k" (deleteObjectE "docs" "k" false false sampleState).1).2
      = Except.error S3Error.notFound ∧
    (deleteObjectE "docs" "k" false false
      (deleteObjectE "docs" "k" false false sampleState).1).2
      = Except.error S3Error.notFound :=
  ⟨by decide,
   (C6_delete_get_delete 4 "docs" "k" sampleState sampleRow (by decide)).1,
   (C6_delete_get_delete 4 "docs" "k" sampleState sampleRow (by decide)).2.1,
   (C6_delete_get_delete 4 "docs" "k" sampleState sampleRow (by decide)).2.2⟩

/-- Claim C9, confirmed: when `delete_object`'s metadata-row deletion fails
after the blob was already removed, the 500 `PartialFailure` is raised
before the cache-invalidation lines run (objects.py lines 247-254), so the
cache is left exactly as it was, the stale metadata row is retained, and
the blob is gone. -/
theorem C9_delete_partial_failure (b k : String) (st : S3State) (r : ObjRow)
    (hr : findObject st.objects b k = some r) :
    (deleteObjectE b k false true st).2 = Except.error S3Error.partialFailure ∧
    (deleteObjectE b k false true st).1.cache = st.cache ∧
    (deleteObjectE b k false true st).1.objects = st.objects ∧
    fsFileExists (deleteObjectE b k false true st).1.files r.storage_path = false := by
  have h2 : (deleteObjectE b k false true st).2
      = Except.error S3Error.partialFailure := by
    simp only [deleteObjectE, hr]
    split
    · simp [deleteMetaStep]
    · simp [deleteMetaStep]
  have hcache : (deleteObjectE b k false true st).1.cache = st.cache := by
    simp only [deleteObjectE, hr]
    split
    · simp [deleteMetaStep, removeEmptyDirsUp_cache]
    · simp [deleteMetaStep]
  have hobj : (deleteObjectE b k false true st).1.objects = st.objects := by
    simp only [deleteObjectE, hr]
    split
    · simp [deleteMetaStep, removeEmptyDirsUp_objects]
    · simp [deleteMetaStep]
  have hfiles : fsFileExists (deleteObjectE b k false true st).1.files
      r.storage_path = false := by
    simp only [deleteObjectE, hr]
    split
    case isTrue hf =>
      simp [deleteMetaStep, removeEmptyDirsUp_files, fsFileExists_fsRemove_self]
    case isFalse hf =>
      simpa [deleteMetaStep] using hf
  exact ⟨h2, hcache, hobj, hfiles⟩

/-- Witness for C9 at a concrete input. -/
theorem C9_witness :
    findObject sampleState.objects "docs" "k" = some sampleRow ∧
    (deleteObjectE "docs" "k" false true sampleState).2
      = Except.error S3Error.partialFailure ∧
    (deleteObjectE "docs" "k" false true sampleState).1.cache = sampleState.cache ∧
    fsFileExists (deleteObjectE "docs" "k" false true sampleState).1.files
      sampleRow.storage_path = false :=
  ⟨by decide,
   (C9_delete_partial_failure "docs" "k" sampleState sampleRow (by decide)).1,
   (C9_delete_partial_failure "docs" "k" sampleState sampleRow (by decide)).2.1,
   (C9_delete_partial_failure "docs" "k" sampleState sampleRow (by decide)).2.2.2⟩

/-- Claim C7, confirmed: `put_object` resolves the final content type by
this exact priority — the explicit `Content-Type` header value when truthy;
else the upload's sniffed content type when truthy and not the generic
`application/octet-stream`; else the type guessed from the key's extension
when truthy; else `application/octet-stream` — and only after a successful
blob write: when the streamed write fails, the Put aborts with
`StorageFailure` and no resolved content type is stored (objects.py lines
60-79). -/
theorem C7_content_type_priority (hash : Blob → String)
    (guess : String → Option String) (b k id : String) (content : Blob)
    (cct sct : Option String) (st : S3State)
    (hb : bucketExists st b = true) (hk : k.isEmpty = false) :
    (truthy cct = true → resolveContentType cct sct guess k = cct.getD "") ∧
    (truthy cct = false →
      (truthy sct && (sct.getD "" != "application/octet-stream")) = true →
      resolveContentType cct sct guess k = sct.getD "") ∧
    (truthy cct = false →
      (truthy sct && (sct.getD "" != "application/octet-stream")) = false →
      truthy (guess k) = true →
      resolveContentType cct sct guess k = (guess k).getD "") ∧
    (truthy cct = false →
      (truthy sct && (sct.getD "" != "application/octet-stream")) = false →
      truthy (guess k) = false →
      resolveContentType cct sct guess k = "application/octet-stream") ∧
    ((putObject hash guess b k content cct sct id false false false st).2
      = Except.ok (hash content, resolveContentType cct sct guess k)) ∧
    (∀ dbF cF : Bool,
      (putObject hash guess b k content cct sct id true dbF cF st).2
        = Except.error S3Error.storageFailure ∧
      (putObject hash guess b k content cct sct id true dbF cF st).1.objects
        = st.objects) := by
  refine ⟨?_, ?_, ?_, ?_, ?_, ?_⟩
  · intro h1
    simp [resolveContentType, h1]
  · intro h1 h2
    simp [resolveContentType, h1, h2]
  · intro h1 h2 h3
    simp [resolveContentType, h1, h2, h3]
  · intro h1 h2 h3
    simp [resolveContentType, h1, h2, h3]
  · simp [putObject, hb, hk]
  · intro dbF cF
    constructor <;> simp [putObject, hb, hk]

/-- Witness for C7 at concrete inputs exercising the header, sniffed,
guessed and fallback cases of the resolution. -/
theorem C7_witness :
    bucketExists sampleState "docs" = true ∧ "a.txt".isEmpty = false ∧
    resolveContentType (some "text/csv") (some "image/png") sampleGuess "a.txt"
      = "text/csv" ∧
    resolveContentType none (some "image/png") sampleGuess "a.txt" = "image/png" ∧
    resolveContentType none (some "application/octet-stream") sampleGuess "a.txt"
      = "text/plain" ∧
    resolveContentType none none sampleGuess "a.bin" = "application/octet-stream" ∧
    (putObject sampleHash sampleGuess "docs" "a.txt" sampleBytes none none "id3"
      true false false sampleState).1.objects = sampleState.objects :=
  ⟨by decide, by decide,
   (C7_content_type_priority sampleHash sampleGuess "docs" "a.txt" "id3" sampleBytes
     (some "text/csv") (some "image/png") sampleState (by decide) (by decide)).1
     (by decide),
   (C7_content_type_priority sampleHash sampleGuess "docs" "a.txt" "id3" sampleBytes
     none (some "image/png") sampleState (by decide) (by decide)).2.1
     (by decide) (by decide),
   (C7_content_type_priority sampleHash sampleGuess "docs" "a.txt" "id3" sampleBytes
     none (some "application/octet-stream") sampleState (by decide) (by decide)).2.2.1
     (by decide) (by decide) (by decide),
   (C7_content_type_priority sampleHash sampleGuess "docs" "a.bin" "id3" sampleBytes
     none none sampleState (by decide) (by decide)).2.2.2.1
     (by decide) (by decide) (by decide),
   ((C7_content_type_priority sampleHash sampleGuess "docs" "a.txt" "id3" sampleBytes
     none none sampleState (by decide) (by decide)).2.2.2.2.2 false false).2⟩

/-- Claim C8, confirmed: `(bucket_name, object_key)` stays unique across the
object rows under the upsert, which on conflict replaces the existing row's
`internal_storage_id`, `storage_path`, `size_bytes`, `etag` (fingerprint)
and `content_type` in place — never appending a second row for the pair
(row count unchanged on conflict, exactly one matching row afterwards) —
and a successful overwriting Put rewrites the blob at the same key-derived
storage path. -/
theorem C8_upsert_unique_replace (objs : List ObjRow) (r : ObjRow)
    (h : UniqueKeys objs) :
    UniqueKeys (upsertObject objs r) ∧
    findObject (upsertObject objs r) r.bucket_name r.object_key = some r ∧
    (upsertObject objs r).countP (keyMatch r.bucket_name r.object_key) = 1 ∧
    (findObject objs r.bucket_name r.object_key = none →
      upsertObject objs r = objs ++ [r]) ∧
    (∀ q, findObject objs r.bucket_name r.object_key = some q →
      (upsertObject objs r).length = objs.length) ∧
    (∀ (hash : Blob → String) (guess : String → Option String) (content : Blob)
       (cct sct : Option String) (id : String) (st : S3State),
      bucketExists st r.bucket_name = true → r.object_key.isEmpty = false →
      (putObject hash guess r.bucket_name r.object_key content cct sct id
        false false false st).1.files
        = fsWrite st.files (storagePath r.bucket_name r.object_key) content) :=
  ⟨upsertObject_preserves_unique r h,
   findObject_upsertObject_self objs r,
   countP_upsertObject r h,
   fun hn => upsertObject_of_not_found hn,
   fun _ hq => length_upsertObject_of_found hq,
   fun hash guess content cct sct id st hb hk => by simp [putObject, hb, hk]⟩

/-- Witness for C8 at a concrete conflicting upsert. -/
theorem C8_witness :
    UniqueKeys [sampleRow] ∧
    findObject [sampleRow] sampleRow2.bucket_name sampleRow2.object_key
      = some sampleRow ∧
    UniqueKeys (upsertObject [sampleRow] sampleRow2) ∧
    findObject (upsertObject [sampleRow] sampleRow2) sampleRow2.bucket_name
      sampleRow2.object_key = some sampleRow2 ∧
    (upsertObject [sampleRow] sampleRow2).countP
      (keyMatch sampleRow2.bucket_name sampleRow2.object_key) = 1 ∧
    (upsertObject [sampleRow] sampleRow2).length = [sampleRow].length :=
  ⟨by simp [UniqueKeys], by decide,
   (C8_upsert_unique_replace [sampleRow] sampleRow2 (by simp [UniqueKeys])).1,
   (C8_upsert_unique_replace [sampleRow] sampleRow2 (by simp [UniqueKeys])).2.1,
   (C8_upsert_unique_replace [sampleRow] sampleRow2 (by simp [UniqueKeys])).2.2.1,
   (C8_upsert_unique_replace [sampleRow] sampleRow2 (by simp [UniqueKeys])).2.2.2.2.1
     sampleRow (by decide)⟩

/-- Claim C10, confirmed: the metadata cache never exceeds its configured
capacity — the cache-touching operations (Get's read-through populate and
recency refresh, Put's and Delete's invalidation) preserve
`size(cache) ≤ cap` for every failure-flag combination — and an insert into
a full cache whose key is absent evicts exactly the least-recently-used
(back) entry. -/
theorem C10_cache_capacity (cap : Nat) (hash : Blob → String)
    (guess : String → Option String) (b k id : String) (content : Blob)
    (cct sct : Option String) (wF dF cF rF dF2 : Bool) (v : Snapshot)
    (st : S3State) :
    (st.cache.length ≤ cap →
      ((putObject hash guess b k content cct sct id wF dF cF st).1.cache.length
          ≤ cap ∧
       (getObject cap b k st).1.cache.length ≤ cap ∧
       (deleteObjectE b k rF dF2 st).1.cache.length ≤ cap)) ∧
    (st.cache.length = cap → 0 < cap → lruLookup st.cache (b, k) = none →
      lruPut cap st.cache (b, k) v = ((b, k), v) :: st.cache.dropLast) := by
  constructor
  · intro hle
    refine ⟨?_, getObject_cache_bound cap b k st hle, ?_⟩
    · rcases putObject_cache_cases hash guess b k id content cct sct wF dF cF st
        with hc | hc <;> rw [hc]
      · exact hle
      · exact Nat.le_trans (length_lruDel_le _ _) hle
    · rcases deleteObjectE_cache_cases b k rF dF2 st with hc | hc <;> rw [hc]
      · exact hle
      · exact Nat.le_trans (length_lruDel_le _ _) hle
  · intro hfull hpos hmiss
    exact lruPut_evicts_lru v hfull hpos hmiss

/-- Witness for C10: the bound at a concrete state and the LRU eviction of
the back entry of a full cache. -/
theorem C10_witness :
    sampleState.cache.length ≤ 4 ∧
    (putObject sampleHash sampleGuess "docs" "k" [1] none none "idw"
      false false false sampleState).1.cache.length ≤ 4 ∧
    sampleState.cache.length = 1 ∧ 0 < 1 ∧
    lruLookup sampleState.cache ("x", "y") = none ∧
    lruPut 1 sampleState.cache ("x", "y") sampleSnap
      = (("x", "y"), sampleSnap) :: sampleState.cache.dropLast :=
  ⟨by decide,
   ((C10_cache_capacity 4 sampleHash sampleGuess "docs" "k" "idw" [1] none none
     false false false false false sampleSnap sampleState).1 (by decide)).1,
   by decide, by decide, by decide,
   (C10_cache_capacity 1 sampleHash sampleGuess "x" "y" "idw" [1] none none
     false false false false false sampleSnap sampleState).2
     (by decide) (by decide) (by decide)⟩

end S3
